import Mathlib

/-!
Verification of the Amazon-Price-Tracker decision engine
(`amazon_price_tracker.py`), as a shallow embedding in Lean 4.

Conventions of the embedding:
* Python `float` prices and timestamps become `ℚ`; Python `None` becomes
  `Option.none`.  Python truthiness of a float-or-None is `truthyQ`
  (false on `none` and on `some 0`); truthiness of a string-or-None is
  `truthyS` (false on `none` and on the empty string); a `datetime`
  object is always truthy, so truthiness of a datetime-or-None is
  `Option.isSome`.
* Python `x or y` on float-or-None values is `pyOrQ` (first truthy
  operand, else the second operand).
* Stateful methods of the `Product` ORM class become functions
  `Product → … → Product × …`; the scheduler's per-product body becomes
  `run_cycle_product`; network calls are modelled by an explicit fetch
  oracle passed as a function argument (`none` = non-200 / exception).
* `dict.get('K', '') or ''` string fields collapse `absent`, `None` and
  `''`; they are modelled as plain `String` with `""` for all three.
-/

namespace APT

/-- Python truthiness of a float-or-None value. -/
def truthyQ : Option ℚ → Bool
  | none => false
  | some x => decide (x ≠ 0)

/-- Python truthiness of a string-or-None value. -/
def truthyS : Option String → Bool
  | none => false
  | some s => decide (s ≠ "")

/-- Python `x or y` for float-or-None values: the first truthy operand,
otherwise the second operand. -/
def pyOrQ (x y : Option ℚ) : Option ℚ :=
  if truthyQ x then x else y

/-- Python `x or dflt` for a string-or-None against a string default. -/
def pyOrS (x : Option String) (dflt : String) : String :=
  match x with
  | none => dflt
  | some s => if s = "" then dflt else s

/-- `MAX_PRICE_HISTORY = 90` (source line 199). -/
def MAX_PRICE_HISTORY : Nat := 90

/-- `ALERT_COOLDOWN_HOURS = 12` (source line 197); times are in hours. -/
def ALERT_COOLDOWN_HOURS : ℚ := 12

/-- One element of a product's `price_history_json` list
(`{'date': …, 'new': …, 'used': …}`); the formatted date string is
modelled by the timestamp it renders. -/
structure PricePoint where
  date : ℚ
  new : Option ℚ
  used : Option ℚ
deriving DecidableEq, Repr

/-- The `Product` ORM entity (source lines 1118–1161), restricted to the
fields the decision engine reads or writes. -/
structure Product where
  asin : String := ""
  title : Option String := none
  url : String := ""
  screenshot_main : Option String := none
  screenshot_offers : Option String := none
  target_price : Option ℚ := none
  current_new_price : Option ℚ := none
  current_used_price : Option ℚ := none
  prev_new_price : Option ℚ := some 0
  prev_used_price : Option ℚ := some 0
  lowest_new_price : Option ℚ := none
  highest_new_price : Option ℚ := none
  lowest_used_price : Option ℚ := none
  highest_used_price : Option ℚ := none
  price_history : List PricePoint := []
  last_checked : Option ℚ := none
  last_alert_sent : Option ℚ := none
  is_active : Bool := true
  is_archived : Bool := false
  alert_new_pct : Option ℚ := none
  alert_new_dollars : Option ℚ := none
  alert_used_pct : Option ℚ := none
  alert_used_dollars : Option ℚ := none
  purchase_price : Option ℚ := none
  recall_status : String := "none"
  recall_id : Option Int := none
  recall_number : Option String := none
  recall_title : Option String := none
  recall_description : Option String := none
  recall_url : Option String := none
  recall_hazard : Option String := none
  recall_remedy : Option String := none
  recall_date : Option String := none
  recall_consumer_contact : Option String := none
  last_recall_check : Option ℚ := none
deriving DecidableEq, Repr

/-- A `ScrapeResult` dict as consumed by `update_from_scrape` and
`run_cycle`. -/
structure ScrapeResult where
  new_price : Option ℚ := none
  used_price : Option ℚ := none
  title : Option String := none
  screenshot_main : Option String := none
  screenshot_offers : Option String := none
  error : Option String := none
deriving DecidableEq, Repr

/-- History trimming of `Product.add_price_point` (source line 1170):
`if len(h) > MAX_PRICE_HISTORY: h = h[-MAX_PRICE_HISTORY:]`. -/
def trim_history (h : List PricePoint) : List PricePoint :=
  if MAX_PRICE_HISTORY < h.length then h.drop (h.length - MAX_PRICE_HISTORY) else h

/-- `Product.add_price_point` (source lines 1167–1171): append a sample
and trim to the most recent `MAX_PRICE_HISTORY`. -/
def add_price_point (p : Product) (new_price used_price : Option ℚ) (now : ℚ) :
    Product :=
  { p with price_history := trim_history (p.price_history ++ [⟨now, new_price, used_price⟩]) }

/-- `Product.should_alert_new` (source lines 1173–1192). -/
def should_alert_new (p : Product) (new_price global_pct global_dollars : Option ℚ) :
    Bool :=
  if ¬ truthyQ new_price then false
  else if ¬ p.last_checked.isSome then false
  else
    let ref := pyOrQ (pyOrQ p.purchase_price p.highest_new_price) p.prev_new_price
    if ¬ truthyQ ref ∨ ref.getD 0 ≤ 0 then false
    else
      let pct := if global_pct.isSome then global_pct else p.alert_new_pct
      let dollars := if global_dollars.isSome then global_dollars else p.alert_new_dollars
      let r := ref.getD 0
      let v := new_price.getD 0
      (truthyQ pct && decide (pct.getD 0 ≤ (r - v) / r * 100)) ||
      (truthyQ dollars && decide (dollars.getD 0 ≤ r - v))

/-- `Product.should_alert_used` (source lines 1194–1213). -/
def should_alert_used (p : Product) (used_price global_pct global_dollars : Option ℚ) :
    Bool :=
  if ¬ truthyQ used_price then false
  else if ¬ p.last_checked.isSome then false
  else
    let ref := pyOrQ (pyOrQ p.highest_used_price p.purchase_price) p.prev_used_price
    if ¬ truthyQ ref ∨ ref.getD 0 ≤ 0 then false
    else
      let pct := if global_pct.isSome then global_pct else p.alert_used_pct
      let dollars := if global_dollars.isSome then global_dollars else p.alert_used_dollars
      let r := ref.getD 0
      let v := used_price.getD 0
      (truthyQ pct && decide (pct.getD 0 ≤ (r - v) / r * 100)) ||
      (truthyQ dollars && decide (dollars.getD 0 ≤ r - v))

/-- Lowercase a string, character by character (Python `str.lower` on
ASCII data). -/
def strLower (s : String) : String := ⟨s.data.map Char.toLower⟩

/-- Does `hay` start with `needle`? -/
def startsWithL : List Char → List Char → Bool
  | [], _ => true
  | _ :: _, [] => false
  | a :: as, b :: bs => a = b && startsWithL as bs

/-- Does `needle` occur contiguously inside `hay`? -/
def infixOfL (needle : List Char) : List Char → Bool
  | [] => startsWithL needle []
  | c :: rest => startsWithL needle (c :: rest) || infixOfL needle rest

/-- Python `needle in hay` for strings. -/
def strIn (needle hay : String) : Bool := infixOfL needle.data hay.data

/-- The title step of `Product.update_from_scrape` (source lines
1235–1243). -/
def upd_title (p : Product) (d : ScrapeResult) : Product × Bool :=
  if truthyS d.title then
    let current := pyOrS p.title ""
    let scraped := d.title.getD ""
    let is_placeholder :=
      strIn "Loading" current || strIn "Order Item" current || decide (current.length < 5)
    let is_different :=
      decide (strLower scraped ≠ strLower current) && decide (10 ≤ scraped.length)
    if is_placeholder || is_different then ({ p with title := some scraped }, true)
    else (p, false)
  else (p, false)

/-- The new-price step of `Product.update_from_scrape` (source lines
1246–1251). -/
def upd_new_price (p : Product) (d : ScrapeResult) : Product × Bool :=
  if truthyQ d.new_price then
    let v := d.new_price.getD 0
    ({ p with
        prev_new_price := pyOrQ p.current_new_price d.new_price
        current_new_price := d.new_price
        lowest_new_price :=
          if ¬ truthyQ p.lowest_new_price ∨ v < p.lowest_new_price.getD 0
          then d.new_price else p.lowest_new_price
        highest_new_price :=
          if ¬ truthyQ p.highest_new_price ∨ p.highest_new_price.getD 0 < v
          then d.new_price else p.highest_new_price }, true)
  else (p, false)

/-- The used-price step of `Product.update_from_scrape` (source lines
1252–1257). -/
def upd_used_price (p : Product) (d : ScrapeResult) : Product × Bool :=
  if truthyQ d.used_price then
    let v := d.used_price.getD 0
    ({ p with
        prev_used_price := pyOrQ p.current_used_price d.used_price
        current_used_price := d.used_price
        lowest_used_price :=
          if ¬ truthyQ p.lowest_used_price ∨ v < p.lowest_used_price.getD 0
          then d.used_price else p.lowest_used_price
        highest_used_price :=
          if ¬ truthyQ p.highest_used_price ∨ p.highest_used_price.getD 0 < v
          then d.used_price else p.highest_used_price }, true)
  else (p, false)

/-- The screenshot steps of `Product.update_from_scrape` (source lines
1244–1245). -/
def upd_screenshot_main (p : Product) (d : ScrapeResult) : Product × Bool :=
  if truthyS d.screenshot_main then ({ p with screenshot_main := d.screenshot_main }, true)
  else (p, false)

def upd_screenshot_offers (p : Product) (d : ScrapeResult) : Product × Bool :=
  if truthyS d.screenshot_offers then ({ p with screenshot_offers := d.screenshot_offers }, true)
  else (p, false)

/-- The final commit of `Product.update_from_scrape` (source lines
1258–1261): on any change, append a history sample and stamp
`last_checked`. -/
def upd_finalize (p : Product) (d : ScrapeResult) (now : ℚ) (updated : Bool) :
    Product × Bool :=
  if updated then
    ({ add_price_point p d.new_price d.used_price now with last_checked := some now }, true)
  else (p, false)

/-- `Product.update_from_scrape` (source lines 1232–1261): the five
update steps in source order, accumulating the `updated` flag, then the
final commit.  Returns the updated product and the `updated` flag. -/
def update_from_scrape (p : Product) (d : ScrapeResult) (now : ℚ) :
    Product × Bool :=
  let s1 := upd_title p d
  let s2 := upd_screenshot_main s1.1 d
  let u2 := s2.2 || s1.2
  let s3 := upd_screenshot_offers s2.1 d
  let u3 := s3.2 || u2
  let s4 := upd_new_price s3.1 d
  let u4 := s4.2 || u3
  let s5 := upd_used_price s4.1 d
  let u5 := s5.2 || u4
  upd_finalize s5.1 d now u5

/-- One alert line appended to run_cycle's `alerts` list; the rendered
f-string is modelled by its kind and the prices it mentions. -/
inductive Alert where
  | targetNew (price target : ℚ)
  | dropNew (price : ℚ)
  | targetUsed (price target : ℚ)
  | dropUsed (price : ℚ)
deriving DecidableEq, Repr

/-- The global-threshold snapshot `run_cycle` takes from `Settings`
(source lines 3005–3011): each threshold is `none` unless
`global_alerts_enabled`. -/
structure CycleGlobals where
  new_pct : Option ℚ := none
  new_dollars : Option ℚ := none
  used_pct : Option ℚ := none
  used_dollars : Option ℚ := none
  batch : Bool := false
deriving Repr

/-- The alert list `run_cycle` builds for one product from one scrape
result (source lines 3117–3145), evaluated on the product as it stands
*after* `update_from_scrape`. -/
def cycle_alerts (p1 : Product) (d : ScrapeResult) (g : CycleGlobals) : List Alert :=
  (if truthyQ d.new_price then
    let v := d.new_price.getD 0
    (if truthyQ p1.target_price ∧ v ≤ p1.target_price.getD 0
     then [Alert.targetNew v (p1.target_price.getD 0)] else []) ++
    (if should_alert_new p1 d.new_price g.new_pct g.new_dollars then
      let ref := pyOrQ (pyOrQ p1.purchase_price p1.highest_new_price) p1.prev_new_price
      if truthyQ ref ∧ 0 < ref.getD 0 then [Alert.dropNew v] else []
     else [])
   else []) ++
  (if truthyQ d.used_price then
    let v := d.used_price.getD 0
    (if truthyQ p1.target_price ∧ v ≤ p1.target_price.getD 0
     then [Alert.targetUsed v (p1.target_price.getD 0)] else []) ++
    (if should_alert_used p1 d.used_price g.used_pct g.used_dollars then
      let ref := pyOrQ (pyOrQ p1.highest_used_price p1.purchase_price) p1.prev_used_price
      if truthyQ ref ∧ 0 < ref.getD 0 then [Alert.dropUsed v] else []
     else [])
   else [])

/-- The body of `run_cycle`'s per-product loop (source lines 3109–3161):
skip on scraper error, apply `update_from_scrape`, build the alert
list, then pass it through the 12-hour cooldown gate; a passed alert is
emitted (batched or individual) and stamps `last_alert_sent` (on email
success, modelled by `emailOk`, for the individual path).  Returns the
product as persisted and the list of alerts emitted to the notifier. -/
def run_cycle_product (p : Product) (d : ScrapeResult) (now : ℚ)
    (g : CycleGlobals) (emailOk : Bool) : Product × List Alert :=
  if truthyS d.error then (p, []) else
  let p1 := (update_from_scrape p d now).1
  let alerts := cycle_alerts p1 d g
  if alerts ≠ [] ∧
      (¬ p1.last_alert_sent.isSome ∨
        ALERT_COOLDOWN_HOURS < now - p1.last_alert_sent.getD 0) then
    if g.batch then ({ p1 with last_alert_sent := some now }, alerts)
    else if emailOk then ({ p1 with last_alert_sent := some now }, alerts)
    else (p1, alerts)
  else (p1, [])

/-- Regex word character (`\w`, ASCII): alphanumeric or underscore. -/
def isWordChar (c : Char) : Bool := c.isAlphanum || c = '_'

/-- Maximal runs of characters satisfying `keep`, in order. -/
def runsBy (keep : Char → Bool) : List Char → List Char → List (List Char)
  | [], acc => if acc = [] then [] else [acc.reverse]
  | c :: rest, acc =>
    if keep c then runsBy keep rest (c :: acc)
    else if acc = [] then runsBy keep rest []
    else acc.reverse :: runsBy keep rest []

/-- Maximal `\w+` runs of a character list. -/
def wordRuns (cs : List Char) : List (List Char) := runsBy isWordChar cs []

/-- Whitespace-separated tokens (Python `str.split()`). -/
def splitWs (cs : List Char) : List (List Char) := runsBy (fun c => ¬ c.isWhitespace) cs []

/-- Is the lowercase pattern `pat` a case-insensitive prefix of `cs`? -/
def ciStarts : List Char → List Char → Bool
  | [], _ => true
  | _ :: _, [] => false
  | p :: ps, c :: cs => p = c.toLower && ciStarts ps cs

/-- Is position `n` of `cs` at a `\b` boundary after a word character
(i.e. is the character there absent or a non-word character)? -/
def nonWordAt (cs : List Char) (n : Nat) : Bool :=
  match cs.drop n with
  | [] => true
  | c :: _ => ¬ isWordChar c

/-- Case-insensitive match of `Loading\b` at the head of `cs`. -/
def matchLoading (cs : List Char) : Bool :=
  ciStarts "loading".data cs && nonWordAt cs 7

/-- Case-insensitive match of `Order Item\b` at the head of `cs`. -/
def matchOrderItem (cs : List Char) : Bool :=
  ciStarts "order item".data cs && nonWordAt cs 10

/-- Case-insensitive match of `B[0-9][A-Z0-9]{8}\b` at the head of `cs`. -/
def matchAsinTok (cs : List Char) : Bool :=
  match cs with
  | b :: d :: rest =>
    b.toLower = 'b' && d.isDigit && decide ((rest.take 8).length = 8) &&
      (rest.take 8).all Char.isAlphanum && nonWordAt cs 10
  | _ => false

/-- `re.sub(r'\b(Loading|Order Item|B[0-9][A-Z0-9]{8})\b', '', title, re.I)`
(source line 1903): scan left to right, removing non-overlapping
leftmost matches; `prevW` is whether the previous original character
was a word character (for the leading `\b`), `skip` counts characters
of a match still to be dropped. -/
def stripPlaceholders : List Char → Bool → Nat → List Char
  | [], _, _ => []
  | _ :: rest, _, Nat.succ k => stripPlaceholders rest true k
  | c :: rest, prevW, 0 =>
    if ¬ prevW ∧ matchLoading (c :: rest) then stripPlaceholders rest true 6
    else if ¬ prevW ∧ matchOrderItem (c :: rest) then stripPlaceholders rest true 9
    else if ¬ prevW ∧ matchAsinTok (c :: rest) then stripPlaceholders rest true 9
    else c :: stripPlaceholders rest (isWordChar c) 0

/-- The punctuation class `[,\-–—|/\\()\[\]{}]` replaced by a space
(source line 1904). -/
def punctChars : List Char :=
  [',', '-', '–', '—', '|', '/', '\\', '(', ')', '[', ']', Char.ofNat 0x7b, Char.ofNat 0x7d]

def punctToSpace (c : Char) : Char := if c ∈ punctChars then ' ' else c

/-- The stop-word list of `extract_recall_keywords` (source lines
1908–1912). -/
def stop_words : List (List Char) :=
  ["the", "a", "an", "and", "or", "for", "with", "in", "on", "of", "to", "by",
   "from", "is", "it", "that", "this", "be", "at", "as", "pack", "set", "count",
   "piece", "inch", "inches", "ft", "oz", "lb", "lbs", "ml", "size", "color",
   "new", "edition", "version", "updated", "latest", "prime", "brand", "item",
   "best", "seller", "great", "value", "premium", "professional", "ultra",
   "super", "pro", "plus", "max", "mini", "deluxe"].map String.data

/-- Join character-list words with single spaces (`' '.join`). -/
def joinSpace (l : List (List Char)) : List Char := List.intercalate [' '] l

/-- The result shape of `extract_recall_keywords`: lowercased brand and
product type, plus ranked original-case queries with their weights. -/
structure KeywordData where
  brand : List Char
  product_type : List Char
  queries : List (List Char × Nat)
deriving DecidableEq, Repr

/-- `extract_recall_keywords` (source lines 1896–1941). -/
def extract_recall_keywords (title : String) : KeywordData :=
  if title = "" then ⟨[], [], []⟩ else
  let cleaned := (stripPlaceholders title.data false 0).map punctToSpace
  let words := (splitWs cleaned).filter
    (fun w => ¬ (w.map Char.toLower) ∈ stop_words ∧ 1 < w.length ∧ w.any Char.isAlpha)
  match words with
  | [] => ⟨[], [], []⟩
  | brand :: rest =>
    let type_words := rest.filter
      (fun w => 3 < w.length ∧ ¬ (w.headD ' ').isDigit ∧
        ¬ (2 ≤ w.length ∧ w.all (fun c => c.isUpper || c.isDigit)))
    let product_type := (joinSpace (type_words.take 3)).map Char.toLower
    let queries :=
      (if type_words ≠ [] then [(joinSpace (brand :: type_words.take 2), 3)] else []) ++
      [(brand, 1)] ++
      (if type_words ≠ [] then [(joinSpace [brand, type_words.headD []], 2)] else [])
    ⟨brand.map Char.toLower, product_type, queries⟩

/-- `re.findall(r'\b[a-z]{4,}\b', s)` on an already-lowercased text:
the maximal word runs made of at least four lowercase letters. -/
def words4 (cs : List Char) : List (List Char) :=
  (wordRuns cs).filter (fun w => 4 ≤ w.length ∧ w.all Char.isLower)

/-- `re.finditer(r'\b([a-zA-Z0-9]{2,3})\b', s)`: the maximal word runs
of two or three alphanumeric characters. -/
def shortTokens (cs : List Char) : List (List Char) :=
  (wordRuns cs).filter
    (fun w => 2 ≤ w.length ∧ w.length ≤ 3 ∧ w.all Char.isAlphanum)

/-- The common-short-function-word list used when admitting 2–3 letter
tokens (source lines 1965–1968, repeated at 2022–2026 and 2097–2101). -/
def short_stop : List (List Char) :=
  ["the", "and", "for", "but", "not", "are", "was", "has", "its", "you", "can",
   "may", "all", "any", "who", "why", "how", "did", "get", "got", "had", "him",
   "her", "his", "our", "own", "new", "old", "one", "two", "big", "few", "set",
   "use", "say", "see", "try", "day", "way", "end", "yet", "now", "let", "put",
   "run", "cut", "off", "ask", "add", "men", "per"].map String.data

/-- Admission test for a short token: contains a digit, or starts with
an uppercase letter and is not a common short function word. -/
def shortOk (w : List Char) : Bool :=
  w.any Char.isDigit ||
    ((w.headD ' ').isUpper && ¬ (w.map Char.toLower) ∈ short_stop)

/-- The generic recall-boilerplate word list (source lines 1972–1980). -/
def generic_words : List (List Char) :=
  ["product", "item", "model", "number", "about", "units", "sold", "stores",
   "between", "through", "from", "were", "with", "that", "this", "have", "been",
   "consumers", "should", "contact", "company", "free", "replacement", "refund",
   "risk", "injury", "hazard", "recall", "recalled", "due", "poses", "posing",
   "also", "each", "made", "make", "more", "most", "much", "only", "over",
   "some", "such", "than", "them", "then", "they", "very", "when", "will",
   "your", "used", "like", "does", "just", "into", "back", "after", "could",
   "would", "which", "first", "other", "where", "still", "every", "under",
   "while", "these", "being", "there", "those", "might", "comes", "including",
   "contains", "found"].map String.data

/-- Set difference on word lists (`s - generic_words`). -/
def setDiff (a b : List (List Char)) : List (List Char) := a.filter (fun w => ¬ w ∈ b)

/-- Cardinality of `a ∩ b` where `a` is duplicate-free. -/
def interCount (a b : List (List Char)) : Nat := (a.filter (fun w => w ∈ b)).length

/-- The `title_words` set of `score_recall_match` (source lines
1959–1970): 4+ letter words of the lowercased title plus admitted short
tokens of the original title, lowercased. -/
def titleWordSet (title : String) : List (List Char) :=
  ((words4 (title.data.map Char.toLower)) ++
    ((shortTokens title.data).filter shortOk).map (fun w => w.map Char.toLower)).dedup

/-- The `product_words` set of `score_recall_match` (source lines
1981–1985): title words minus generic words, with the brand token
discarded. -/
def product_words (title : String) : List (List Char) :=
  let pw := setDiff (titleWordSet title) generic_words
  let brand := (extract_recall_keywords title).brand
  if brand ≠ [] then pw.filter (fun w => w ≠ brand) else pw

/-- The "same hybrid extraction" applied to recall-side text (source
lines 2017–2028 and 2093–2103): 4+ letter lowercase words minus generic
words, plus admitted short tokens of the original text, minus generic
words again. -/
def hybridWords (cs : List Char) : List (List Char) :=
  let base := setDiff (words4 (cs.map Char.toLower)) generic_words
  let shorts := ((shortTokens cs).filter shortOk).map (fun w => w.map Char.toLower)
  setDiff (base ++ shorts).dedup generic_words

/-- One entry of a CPSC recall's `Products` list; `get('K','') or ''`
collapses absent/None/empty to `""`. -/
structure CpscProd where
  Name : String := ""
  Description : String := ""
  Model : String := ""
deriving DecidableEq, Repr

/-- A recall candidate record as scored by `score_recall_match`: the
union of the fields the CPSC branch and the FDA branch read.
Single-field sub-dicts (manufacturer/retailer/UPC entries) collapse to
their one string. -/
structure RecallData where
  Products : List CpscProd := []
  Title : String := ""
  Manufacturers : List String := []
  Retailers : List String := []
  ProductUPCs : List String := []
  product_description : String := ""
  reason_for_recall : String := ""
  recalling_firm : String := ""
deriving DecidableEq, Repr

/-- Python `str.strip()` (whitespace from both ends). -/
def pyStripWs (cs : List Char) : List Char :=
  ((cs.dropWhile Char.isWhitespace).reverse.dropWhile Char.isWhitespace).reverse

/-- Python `str.strip(chars)` for an explicit character set. -/
def pyStripChars (chars : List Char) (w : List Char) : List Char :=
  ((w.dropWhile (fun c => c ∈ chars)).reverse.dropWhile (fun c => c ∈ chars)).reverse

/-- Option-aware word-character test for boundary checks. -/
def wordCharO : Option Char → Bool
  | none => false
  | some c => isWordChar c

/-- `re.search(r'\b' + re.escape(needle) + r'\b', hay)`: does `needle`
occur in `hay` with a word boundary on each side? -/
def wholeWord (needle hay : List Char) : Bool :=
  (List.range (hay.length + 1)).any (fun i =>
    startsWithL needle (hay.drop i) &&
    (wordCharO (if i = 0 then none else hay.get? (i - 1)) != wordCharO needle.head?) &&
    (wordCharO ((hay.drop i).get? needle.length) != wordCharO needle.getLast?))

/-- The combined lowercased CPSC recall text the brand gate searches
(source lines 1994–2001): product names and descriptions, recall
title, manufacturer names, space-joined. -/
def cpsc_recall_text (r : RecallData) : List Char :=
  joinSpace
    (((r.Products.map (fun pr =>
        [pr.Name.data.map Char.toLower, pr.Description.data.map Char.toLower])).flatten) ++
      [r.Title.data.map Char.toLower] ++
      r.Manufacturers.map (fun m => m.data.map Char.toLower))

/-- The CPSC brand gate (source line 2003). -/
def cpsc_brand_found (title : String) (r : RecallData) : Bool :=
  let brand := (extract_recall_keywords title).brand
  decide (brand ≠ []) && decide (2 ≤ brand.length) && wholeWord brand (cpsc_recall_text r)

/-- The per-sub-record CPSC product score (source lines 2012–2041):
capped word overlap plus the model-substring bonus. -/
def cpsc_prod_score (title : String) (pr : CpscProd) : Nat :=
  let pw := product_words title
  let prodW := hybridWords ((pr.Name ++ " " ++ pr.Description).data)
  let overlap := interCount pw prodW
  (if 2 ≤ overlap then min (overlap * 12) 40 else 0) +
  (let model := pyStripWs pr.Model.data
   if 3 ≤ model.length ∧ infixOfL (model.map Char.toLower) (title.data.map Char.toLower)
   then 25 else 0)

/-- Best single sub-record score across `Products` (source lines
2010–2041). -/
def cpsc_best_product_score (title : String) (r : RecallData) : Nat :=
  (r.Products.map (cpsc_prod_score title)).foldl max 0

/-- The CPSC product-type gate: the best sub-record score is positive. -/
def cpsc_type_match (title : String) (r : RecallData) : Bool :=
  0 < cpsc_best_product_score title r

/-- Recall-title overlap contribution (source lines 2047–2052). -/
def cpsc_title_overlap_score (title : String) (r : RecallData) : Nat :=
  let rtw := setDiff (words4 (r.Title.data.map Char.toLower)) generic_words
  let ov := interCount (product_words title) rtw
  if 2 ≤ ov then min (ov * 8) 20 else 0

/-- Amazon retailer bonus, +5 per matching retailer entry (source lines
2054–2057). -/
def cpsc_retailer_bonus (r : RecallData) : Nat :=
  5 * (r.Retailers.filter
        (fun n => infixOfL "amazon".data (n.data.map Char.toLower))).length

/-- Definitive UPC match (source lines 2059–2063): a nonempty stripped
UPC occurring verbatim in the original product title. -/
def cpsc_upc_match (title : String) (r : RecallData) : Bool :=
  r.ProductUPCs.any (fun u =>
    let uv := pyStripWs u.data
    decide (uv ≠ []) && infixOfL uv title.data)

/-- The `source='cpsc'` branch of `score_recall_match` (source lines
1991–2071): additive signals, the UPC override to 100, then the two
hard caps and the final clamp. -/
def score_cpsc (title : String) (r : RecallData) : Nat :=
  let bf := cpsc_brand_found title r
  let bps := cpsc_best_product_score title r
  let s1 := (if bf then 30 else 0) + bps + cpsc_title_overlap_score title r +
    cpsc_retailer_bonus r
  let s2 := if cpsc_upc_match title r then 100 else s1
  let s3 := if bf then s2 else min s2 15
  let s4 := if 0 < bps then s3 else min s3 30
  min s4 100

/-- The FDA brand gate (source lines 2078–2090): brand as a whole word
in the recalling firm, or brand equal to one of the first three
(comma/paren/dash-stripped) words of the product description. -/
def fda_brand_found (title : String) (r : RecallData) : Bool :=
  let brand := (extract_recall_keywords title).brand
  let firm := r.recalling_firm.data.map Char.toLower
  let descL := r.product_description.data.map Char.toLower
  decide (brand ≠ []) && decide (2 ≤ brand.length) &&
    (wholeWord brand firm ||
      ((splitWs (pyStripWs descL)).take 3).any
        (fun w => brand = pyStripChars ",-()".data w))

/-- FDA product-type overlap count (source lines 2092–2104). -/
def fda_overlap (title : String) (r : RecallData) : Nat :=
  interCount (product_words title) (hybridWords r.product_description.data)

/-- The FDA product-type gate: at least two overlapping words. -/
def fda_type_match (title : String) (r : RecallData) : Bool :=
  2 ≤ fda_overlap title r

/-- Reason-for-recall overlap contribution (source lines 2109–2113). -/
def fda_reason_score (title : String) (r : RecallData) : Nat :=
  let rw := setDiff (words4 (r.reason_for_recall.data.map Char.toLower)) generic_words
  let ov := interCount (product_words title) rw
  if 1 ≤ ov then min (ov * 3) 10 else 0

/-- The `source='fda'` branch of `score_recall_match` (source lines
2073–2121). -/
def score_fda (title : String) (r : RecallData) : Nat :=
  let bf := fda_brand_found title r
  let ov := fda_overlap title r
  let s1 := (if bf then 30 else 0) + (if 2 ≤ ov then min (ov * 12) 40 else 0) +
    fda_reason_score title r
  let s2 := if bf then s1 else min s1 15
  let s3 := if 2 ≤ ov then s2 else min s2 30
  min s3 100

/-- `score_recall_match` (source lines 1944–2123).  An empty title is
falsy and scores 0; an unknown source tag falls through both branches
and scores 0. -/
def score_recall_match (title : String) (r : RecallData) (source : String) : Nat :=
  if title = "" then 0
  else if source = "cpsc" then score_cpsc title r
  else if source = "fda" then score_fda title r
  else 0

/-- The brand gate of whichever branch `source` selects. -/
def brand_gate (title : String) (r : RecallData) (source : String) : Bool :=
  if source = "cpsc" then cpsc_brand_found title r
  else if source = "fda" then fda_brand_found title r
  else false

/-- The product-type gate of whichever branch `source` selects. -/
def type_gate (title : String) (r : RecallData) (source : String) : Bool :=
  if source = "cpsc" then cpsc_type_match title r
  else if source = "fda" then fda_type_match title r
  else false

/-- State of one CPSC search: running best score and match, and the
trace of issued API requests, each paired with the running best score
right after its candidates were processed. -/
structure CpscSearchState where
  best_score : Nat
  best_match : Option RecallData
  issued : List (List Char × Nat)
deriving Repr

/-- The candidate loop of `check_cpsc_recalls_for_product` (source lines
2148–2157): score each candidate, track the best, and break as soon as
the best reaches 85. -/
def scan_cpsc_candidates (title : String) :
    List RecallData → Nat → Option RecallData → Nat × Option RecallData
  | [], b, m => (b, m)
  | r :: rs, b, m =>
    let sc := score_recall_match title r "cpsc"
    let b2 := if b < sc then sc else b
    let m2 := if b < sc then some r else m
    if 85 ≤ b2 then (b2, m2) else scan_cpsc_candidates title rs b2 m2

/-- The query loop of `check_cpsc_recalls_for_product` (source lines
2137–2167); `fetch q = none` models a non-200 response, a non-list
body, or an exception (the request was still issued). -/
def cpsc_go (title : String) (fetch : List Char → Option (List RecallData)) :
    List (List Char × Nat) → Nat → Option RecallData → List (List Char × Nat) →
    CpscSearchState
  | [], b, m, iss => ⟨b, m, iss⟩
  | (q, _w) :: rest, b, m, iss =>
    match fetch q with
    | none => cpsc_go title fetch rest b m (iss ++ [(q, b)])
    | some rs =>
      let bm := scan_cpsc_candidates title (rs.take 25) b m
      if 85 ≤ bm.1 then ⟨bm.1, bm.2, iss ++ [(q, bm.1)]⟩
      else cpsc_go title fetch rest bm.1 bm.2 (iss ++ [(q, bm.1)])

/-- The whole CPSC search over the extracted queries. -/
def cpsc_search (title : String) (fetch : List Char → Option (List RecallData)) :
    CpscSearchState :=
  cpsc_go title fetch (extract_recall_keywords title).queries 0 none []

/-- `check_cpsc_recalls_for_product` (source lines 2126–2171) with
`min_score = 55`. -/
def check_cpsc_recalls_for_product (title : String)
    (fetch : List Char → Option (List RecallData)) : Option RecallData :=
  let st := cpsc_search title fetch
  if st.best_match.isSome && decide (55 ≤ st.best_score) then st.best_match else none

/-- The three openFDA enforcement endpoints (source lines 2184–2188). -/
def fda_endpoints : List String :=
  ["https://api.fda.gov/food/enforcement.json",
   "https://api.fda.gov/drug/enforcement.json",
   "https://api.fda.gov/device/enforcement.json"]

/-- State of one openFDA search; the best match carries the
`_fda_endpoint` tag the code attaches; the trace records
(endpoint, query, best score after the request). -/
structure FdaSearchState where
  best_score : Nat
  best_match : Option (RecallData × String)
  issued : List (String × List Char × Nat)
deriving Repr

/-- The candidate loop of `check_fda_recalls_for_product` (source lines
2211–2217): no early break. -/
def scan_fda_candidates (title : String) (ep : String) :
    List RecallData → Nat → Option (RecallData × String) →
    Nat × Option (RecallData × String)
  | [], b, m => (b, m)
  | r :: rs, b, m =>
    let sc := score_recall_match title r "fda"
    let b2 := if b < sc then sc else b
    let m2 := if b < sc then some (r, ep) else m
    scan_fda_candidates title ep rs b2 m2

/-- The endpoint loop of `check_fda_recalls_for_product` (source lines
2197–2223); `fetch ep q = none` models a 404, another non-200 status,
or an exception (the request was still issued). -/
def fda_ep_go (title : String) (fetch : String → List Char → Option (List RecallData))
    (q : List Char) :
    List String → Nat → Option (RecallData × String) →
    List (String × List Char × Nat) → FdaSearchState
  | [], b, m, iss => ⟨b, m, iss⟩
  | ep :: eps, b, m, iss =>
    match fetch ep q with
    | none => fda_ep_go title fetch q eps b m (iss ++ [(ep, q, b)])
    | some rs =>
      let bm := scan_fda_candidates title ep rs b m
      fda_ep_go title fetch q eps bm.1 bm.2 (iss ++ [(ep, q, bm.1)])

/-- The query loop of `check_fda_recalls_for_product` (source line
2193): only the first two extracted queries are used. -/
def fda_go (title : String) (fetch : String → List Char → Option (List RecallData)) :
    List (List Char × Nat) → Nat → Option (RecallData × String) →
    List (String × List Char × Nat) → FdaSearchState
  | [], b, m, iss => ⟨b, m, iss⟩
  | (q, _w) :: rest, b, m, iss =>
    let st := fda_ep_go title fetch q fda_endpoints b m iss
    fda_go title fetch rest st.best_score st.best_match st.issued

/-- The whole openFDA search over `keywords[:2]`. -/
def fda_search (title : String)
    (fetch : String → List Char → Option (List RecallData)) : FdaSearchState :=
  fda_go title fetch ((extract_recall_keywords title).queries.take 2) 0 none []

/-- `check_fda_recalls_for_product` (source lines 2174–2227) with
`min_score = 55`. -/
def check_fda_recalls_for_product (title : String)
    (fetch : String → List Char → Option (List RecallData)) :
    Option (RecallData × String) :=
  let st := fda_search title fetch
  if st.best_match.isSome && decide (55 ≤ st.best_score) then st.best_match else none

/-- The per-product body of `run_recall_scan` (source lines 2297–2353):
CPSC first; only on no CPSC match fall back to openFDA.  Returns the
matched candidate (if any), the CPSC request trace and the FDA request
trace. -/
def run_recall_scan_product (title : String)
    (fetchC : List Char → Option (List RecallData))
    (fetchF : String → List Char → Option (List RecallData)) :
    Option RecallData × List (List Char × Nat) × List (String × List Char × Nat) :=
  match check_cpsc_recalls_for_product title fetchC with
  | some m => (some m, (cpsc_search title fetchC).issued, [])
  | none =>
    ((check_fda_recalls_for_product title fetchF).map Prod.fst,
      (cpsc_search title fetchC).issued, (fda_search title fetchF).issued)

/-- The normalized recall shape written onto a product (the dict built
by `run_recall_scan`/`normalize_fda_to_recall_data`). -/
structure RecallResult where
  recall_id : Option Int := none
  recall_number : Option String := none
  recall_title : Option String := none
  recall_description : Option String := none
  recall_url : Option String := none
  recall_hazard : Option String := none
  recall_remedy : Option String := none
  recall_date : Option String := none
  recall_consumer_contact : Option String := none
deriving DecidableEq, Repr

/-- `apply_recall_to_product` (source lines 2362–2374). -/
def apply_recall_to_product (p : Product) (rd : RecallResult) (now : ℚ) : Product :=
  { p with
    recall_status := "matched"
    recall_id := rd.recall_id
    recall_number := rd.recall_number
    recall_title := rd.recall_title
    recall_description := rd.recall_description
    recall_url := rd.recall_url
    recall_hazard := rd.recall_hazard
    recall_remedy := rd.recall_remedy
    recall_date := rd.recall_date
    recall_consumer_contact := rd.recall_consumer_contact
    last_recall_check := some now }

/-- The selection filter both recall-scan call sites apply (source
lines 3073–3074 and 2669–2670): a truthy, non-placeholder title and a
recall status that is neither `matched` nor `dismissed`. -/
def recall_eligible (p : Product) : Bool :=
  truthyS p.title && ! strIn "Loading" (pyOrS p.title "") &&
    decide (p.recall_status ≠ "matched") && decide (p.recall_status ≠ "dismissed")

/-- The per-product effect of one recall scan (source lines 3072–3090,
identically 2666–2689): an ineligible product is untouched; an eligible
product either receives the match or is stamped checked-and-clear
(guarded again by its status, as in the source's second loop). -/
def recall_scan_step (p : Product) (result : Option RecallResult) (now : ℚ) : Product :=
  if recall_eligible p then
    match result with
    | some rd => apply_recall_to_product p rd now
    | none =>
      if p.recall_status ≠ "matched" ∧ p.recall_status ≠ "dismissed" then
        { p with recall_status := "none", last_recall_check := some now }
      else p
  else p

/-- `api_dismiss_recall` (source lines 2708–2732): dismissing an
already-dismissed recall is the re-check reset that clears every
recall field; otherwise the recall is dismissed. -/
def api_dismiss_recall (p : Product) : Product :=
  if p.recall_status = "dismissed" then
    { p with
      recall_status := "none"
      recall_id := none
      recall_number := none
      recall_title := none
      recall_description := none
      recall_url := none
      recall_hazard := none
      recall_remedy := none
      recall_date := none
      recall_consumer_contact := none
      last_recall_check := none }
  else { p with recall_status := "dismissed" }

/-- A sequence of `update_from_scrape` calls (scrape result and
timestamp each), applied in order. -/
def apply_scrapes (p : Product) (l : List (ScrapeResult × ℚ)) : Product :=
  l.foldl (fun q e => (update_from_scrape q e.1 e.2).1) p

/-- A sequence of `add_price_point` calls (new price, used price,
timestamp each), applied in order. -/
def apply_appends (p : Product) (l : List (Option ℚ × Option ℚ × ℚ)) : Product :=
  l.foldl (fun q e => add_price_point q e.1 e.2.1 e.2.2) p

/-- The history sample one `add_price_point` argument triple produces. -/
def toPoint (e : Option ℚ × Option ℚ × ℚ) : PricePoint := ⟨e.2.2, e.1, e.2.1⟩

/-! Concrete inputs used by the claim witnesses and counterexamples. -/

/-- A product imported with `purchase_price` 50 and a 10% per-item
threshold, never checked (`last_checked` unset). -/
def exFreshProduct : Product :=
  { title := some "Example Gadget", purchase_price := some 50, alert_new_pct := some 10 }

/-- Its first-ever scrape result: a price of 40 (a 20% drop from the
purchase price). -/
def exFirstScrape : ScrapeResult := { new_price := some 40 }

/-- A never-checked product for the baseline-rule witness. -/
def exBaselineProduct : Product :=
  { purchase_price := some 50, highest_used_price := some 80,
    alert_new_pct := some 10, alert_used_pct := some 10 }

/-- A product whose last alert went out at hour 10. -/
def exCooldownProduct : Product :=
  { title := some "Example Gadget", purchase_price := some 50,
    alert_new_pct := some 10, last_checked := some 5, last_alert_sent := some 10,
    highest_new_price := some 50 }

/-- A huge drop scraped again within the cooldown window. -/
def exCooldownScrape : ScrapeResult := { new_price := some 1 }

/-- A product whose stored `lowest_new_price` is exactly 0. -/
def exZeroLowProduct : Product :=
  { lowest_new_price := some 0, current_new_price := some 2 }

def exRaisingScrape : ScrapeResult := { new_price := some 5 }

/-- A product with all four extrema established (nonzero). -/
def exExtremaProduct : Product :=
  { lowest_new_price := some 40, highest_new_price := some 60,
    lowest_used_price := some 20, highest_used_price := some 50 }

/-- 91 appends of the same sample. -/
def exAppendList : List (Option ℚ × Option ℚ × ℚ) :=
  List.replicate 91 (some 1, none, 0)

/-- The product title driving the recall-scoring examples. -/
def exRecallTitle : String := "Weber Genesis Grill Cover"

/-- A CPSC candidate whose product name repeats the brand and three
type words: brand gate + type gate both pass, score 66. -/
def exRecallHit : RecallData := { Products := [{ Name := "Weber Genesis Grill Cover" }] }

/-- A CPSC candidate with full product-type overlap but a different
brand: the brand gate fails. -/
def exRecallNoBrand : RecallData :=
  { Products := [{ Name := "Acme Genesis Grill Cover" }] }

/-- A CPSC candidate scoring 86 (brand 30 + overlap 36 + recall-title
overlap 20): above the 85 short-circuit threshold. -/
def exRecall86 : RecallData :=
  { Products := [{ Name := "Weber Genesis Grill Cover" }],
    Title := "Weber Genesis Grill Cover Recalled" }

/-- A CPSC fetch oracle: the first (weight-3) query returns the
86-scoring candidate, anything else an empty page. -/
def exCpscFetch : List Char → Option (List RecallData) :=
  fun q => if q = "Weber Genesis Grill".data then some [exRecall86] else some []

/-- An FDA fetch oracle that always fails (404 / error): every request
is still issued. -/
def exFdaFetch : String → List Char → Option (List RecallData) :=
  fun _ _ => none

/-- The title of spec end-to-end example 3; its extractor yields all
three queries (weights 3, 1 and 2). -/
def exFdaTitle : String := "Weber Genesis Gas Grill"

/-- A dismissed product with every recall field populated. -/
def exDismissedProduct : Product :=
  { title := some "Some Gadget", recall_status := "dismissed",
    recall_id := some 5, recall_number := some "24-123",
    recall_title := some "T", recall_description := some "D",
    recall_url := some "U", recall_hazard := some "H",
    recall_remedy := some "R", recall_date := some "2024-01-01",
    recall_consumer_contact := some "C", last_recall_check := some 3 }

/-- A populated product for the no-op-scrape witness. -/
def exStableProduct : Product :=
  { title := some "Example Gadget", current_new_price := some 9,
    lowest_new_price := some 8, highest_new_price := some 12,
    price_history := [⟨1, some 9, none⟩], last_checked := some 1 }

/-- A scrape result carrying only a zero price. -/
def exEmptyScrape : ScrapeResult := { new_price := some 0 }

/-! ### Helper lemmas about the update steps -/

theorem upd_title_preserves (p : Product) (d : ScrapeResult) :
    (upd_title p d).1.lowest_new_price = p.lowest_new_price ∧
    (upd_title p d).1.highest_new_price = p.highest_new_price ∧
    (upd_title p d).1.lowest_used_price = p.lowest_used_price ∧
    (upd_title p d).1.highest_used_price = p.highest_used_price ∧
    (upd_title p d).1.last_alert_sent = p.last_alert_sent := by
  unfold upd_title
  split
  · dsimp only
    split <;> exact ⟨rfl, rfl, rfl, rfl, rfl⟩
  · exact ⟨rfl, rfl, rfl, rfl, rfl⟩

theorem upd_screenshot_main_preserves (p : Product) (d : ScrapeResult) :
    (upd_screenshot_main p d).1.lowest_new_price = p.lowest_new_price ∧
    (upd_screenshot_main p d).1.highest_new_price = p.highest_new_price ∧
    (upd_screenshot_main p d).1.lowest_used_price = p.lowest_used_price ∧
    (upd_screenshot_main p d).1.highest_used_price = p.highest_used_price ∧
    (upd_screenshot_main p d).1.last_alert_sent = p.last_alert_sent := by
  unfold upd_screenshot_main
  split <;> exact ⟨rfl, rfl, rfl, rfl, rfl⟩

theorem upd_screenshot_offers_preserves (p : Product) (d : ScrapeResult) :
    (upd_screenshot_offers p d).1.lowest_new_price = p.lowest_new_price ∧
    (upd_screenshot_offers p d).1.highest_new_price = p.highest_new_price ∧
    (upd_screenshot_offers p d).1.lowest_used_price = p.lowest_used_price ∧
    (upd_screenshot_offers p d).1.highest_used_price = p.highest_used_price ∧
    (upd_screenshot_offers p d).1.last_alert_sent = p.last_alert_sent := by
  unfold upd_screenshot_offers
  split <;> exact ⟨rfl, rfl, rfl, rfl, rfl⟩

theorem upd_new_price_char (p : Product) (d : ScrapeResult) :
    ((upd_new_price p d).1.lowest_new_price =
      if truthyQ d.new_price then
        (if ¬ truthyQ p.lowest_new_price ∨ d.new_price.getD 0 < p.lowest_new_price.getD 0
         then d.new_price else p.lowest_new_price)
      else p.lowest_new_price) ∧
    ((upd_new_price p d).1.highest_new_price =
      if truthyQ d.new_price then
        (if ¬ truthyQ p.highest_new_price ∨ p.highest_new_price.getD 0 < d.new_price.getD 0
         then d.new_price else p.highest_new_price)
      else p.highest_new_price) ∧
    (upd_new_price p d).1.lowest_used_price = p.lowest_used_price ∧
    (upd_new_price p d).1.highest_used_price = p.highest_used_price ∧
    (upd_new_price p d).1.last_alert_sent = p.last_alert_sent := by
  unfold upd_new_price
  split
  · rename_i h
    exact ⟨by simp [h], by simp [h], rfl, rfl, rfl⟩
  · rename_i h
    simp only [Bool.not_eq_true] at h
    exact ⟨by simp [h], by simp [h], rfl, rfl, rfl⟩

theorem upd_used_price_char (p : Product) (d : ScrapeResult) :
    ((upd_used_price p d).1.lowest_used_price =
      if truthyQ d.used_price then
        (if ¬ truthyQ p.lowest_used_price ∨ d.used_price.getD 0 < p.lowest_used_price.getD 0
         then d.used_price else p.lowest_used_price)
      else p.lowest_used_price) ∧
    ((upd_used_price p d).1.highest_used_price =
      if truthyQ d.used_price then
        (if ¬ truthyQ p.highest_used_price ∨ p.highest_used_price.getD 0 < d.used_price.getD 0
         then d.used_price else p.highest_used_price)
      else p.highest_used_price) ∧
    (upd_used_price p d).1.lowest_new_price = p.lowest_new_price ∧
    (upd_used_price p d).1.highest_new_price = p.highest_new_price ∧
    (upd_used_price p d).1.last_alert_sent = p.last_alert_sent := by
  unfold upd_used_price
  split
  · rename_i h
    exact ⟨by simp [h], by simp [h], rfl, rfl, rfl⟩
  · rename_i h
    simp only [Bool.not_eq_true] at h
    exact ⟨by simp [h], by simp [h], rfl, rfl, rfl⟩

theorem upd_finalize_preserves (p : Product) (d : ScrapeResult) (now : ℚ) (u : Bool) :
    (upd_finalize p d now u).1.lowest_new_price = p.lowest_new_price ∧
    (upd_finalize p d now u).1.highest_new_price = p.highest_new_price ∧
    (upd_finalize p d now u).1.lowest_used_price = p.lowest_used_price ∧
    (upd_finalize p d now u).1.highest_used_price = p.highest_used_price ∧
    (upd_finalize p d now u).1.last_alert_sent = p.last_alert_sent := by
  unfold upd_finalize add_price_point
  split <;> exact ⟨rfl, rfl, rfl, rfl, rfl⟩

theorem update_lowest_new_char (p : Product) (d : ScrapeResult) (now : ℚ) :
    (update_from_scrape p d now).1.lowest_new_price =
      if truthyQ d.new_price then
        (if ¬ truthyQ p.lowest_new_price ∨ d.new_price.getD 0 < p.lowest_new_price.getD 0
         then d.new_price else p.lowest_new_price)
      else p.lowest_new_price := by
  unfold update_from_scrape
  rw [(upd_finalize_preserves _ _ _ _).1, (upd_used_price_char _ _).2.2.1,
    (upd_new_price_char _ _).1, (upd_screenshot_offers_preserves _ _).1,
    (upd_screenshot_main_preserves _ _).1, (upd_title_preserves _ _).1]

theorem update_highest_new_char (p : Product) (d : ScrapeResult) (now : ℚ) :
    (update_from_scrape p d now).1.highest_new_price =
      if truthyQ d.new_price then
        (if ¬ truthyQ p.highest_new_price ∨ p.highest_new_price.getD 0 < d.new_price.getD 0
         then d.new_price else p.highest_new_price)
      else p.highest_new_price := by
  unfold update_from_scrape
  rw [(upd_finalize_preserves _ _ _ _).2.1, (upd_used_price_char _ _).2.2.2.1,
    (upd_new_price_char _ _).2.1, (upd_screenshot_offers_preserves _ _).2.1,
    (upd_screenshot_main_preserves _ _).2.1, (upd_title_preserves _ _).2.1]

theorem update_lowest_used_char (p : Product) (d : ScrapeResult) (now : ℚ) :
    (update_from_scrape p d now).1.lowest_used_price =
      if truthyQ d.used_price then
        (if ¬ truthyQ p.lowest_used_price ∨ d.used_price.getD 0 < p.lowest_used_price.getD 0
         then d.used_price else p.lowest_used_price)
      else p.lowest_used_price := by
  unfold update_from_scrape
  rw [(upd_finalize_preserves _ _ _ _).2.2.1, (upd_used_price_char _ _).1,
    (upd_new_price_char _ _).2.2.1, (upd_screenshot_offers_preserves _ _).2.2.1,
    (upd_screenshot_main_preserves _ _).2.2.1, (upd_title_preserves _ _).2.2.1]

theorem update_highest_used_char (p : Product) (d : ScrapeResult) (now : ℚ) :
    (update_from_scrape p d now).1.highest_used_price =
      if truthyQ d.used_price then
        (if ¬ truthyQ p.highest_used_price ∨ p.highest_used_price.getD 0 < d.used_price.getD 0
         then d.used_price else p.highest_used_price)
      else p.highest_used_price := by
  unfold update_from_scrape
  rw [(upd_finalize_preserves _ _ _ _).2.2.2.1, (upd_used_price_char _ _).2.1,
    (upd_new_price_char _ _).2.2.2.1, (upd_screenshot_offers_preserves _ _).2.2.2.1,
    (upd_screenshot_main_preserves _ _).2.2.2.1, (upd_title_preserves _ _).2.2.2.1]

theorem update_last_alert_sent (p : Product) (d : ScrapeResult) (now : ℚ) :
    (update_from_scrape p d now).1.last_alert_sent = p.last_alert_sent := by
  unfold update_from_scrape
  rw [(upd_finalize_preserves _ _ _ _).2.2.2.2, (upd_used_price_char _ _).2.2.2.2,
    (upd_new_price_char _ _).2.2.2.2, (upd_screenshot_offers_preserves _ _).2.2.2.2,
    (upd_screenshot_main_preserves _ _).2.2.2.2, (upd_title_preserves _ _).2.2.2.2]

/-! ### Claim C2 -/

/-- C2: for every product whose `last_checked` field is `None`,
`should_alert_new` and `should_alert_used` return false for every price
argument and every combination of global/per-item percent and dollar
thresholds. -/
theorem claim_c2_baseline_rule (p : Product) (np up gnp gnd gup gud : Option ℚ)
    (h : p.last_checked = none) :
    should_alert_new p np gnp gnd = false ∧ should_alert_used p up gup gud = false := by
  constructor <;> simp [should_alert_new, should_alert_used, h]

/-- Witness for C2 at a concrete never-checked product with prices and
thresholds supplied. -/
theorem claim_c2_baseline_rule_witness :
    exBaselineProduct.last_checked = none ∧
    (should_alert_new exBaselineProduct (some 40) (some 5) (some 5) = false ∧
      should_alert_used exBaselineProduct (some 40) (some 5) (some 5) = false) :=
  ⟨rfl, claim_c2_baseline_rule exBaselineProduct (some 40) (some 40) (some 5) (some 5)
    (some 5) (some 5) rfl⟩

/-! ### Claim C10 -/

/-- C10: a scrape result with no (truthy) title, no screenshots and no
truthy prices — absent, `None`, or zero — makes `update_from_scrape`
return `False` and leave the product entirely unchanged. -/
theorem claim_c10_noop_scrape (p : Product) (d : ScrapeResult) (now : ℚ)
    (h1 : truthyS d.title = false) (h2 : truthyS d.screenshot_main = false)
    (h3 : truthyS d.screenshot_offers = false) (h4 : truthyQ d.new_price = false)
    (h5 : truthyQ d.used_price = false) :
    update_from_scrape p d now = (p, false) := by
  simp [update_from_scrape, upd_title, upd_screenshot_main, upd_screenshot_offers,
    upd_new_price, upd_used_price, upd_finalize, h1, h2, h3, h4, h5]

/-- Witness for C10 at a populated product and a scrape carrying only a
zero price. -/
theorem claim_c10_noop_scrape_witness :
    truthyQ exEmptyScrape.new_price = false ∧
    update_from_scrape exStableProduct exEmptyScrape 7 = (exStableProduct, false) :=
  ⟨rfl, claim_c10_noop_scrape exStableProduct exEmptyScrape 7 rfl rfl rfl rfl rfl⟩

/-! ### Claim C9 -/

/-- C9: a product whose recall status is `matched` or `dismissed` is
never selected for a recall scan and is untouched by one, and the
dismiss→re-check reset clears every recall field and returns the
status to `none`. -/
theorem claim_c9_recall_exclusion (p : Product) (rd : Option RecallResult) (now : ℚ) :
    ((p.recall_status = "matched" ∨ p.recall_status = "dismissed") →
      recall_eligible p = false ∧ recall_scan_step p rd now = p) ∧
    (p.recall_status = "dismissed" →
      (api_dismiss_recall p).recall_status = "none" ∧
      (api_dismiss_recall p).recall_id = none ∧
      (api_dismiss_recall p).recall_number = none ∧
      (api_dismiss_recall p).recall_title = none ∧
      (api_dismiss_recall p).recall_description = none ∧
      (api_dismiss_recall p).recall_url = none ∧
      (api_dismiss_recall p).recall_hazard = none ∧
      (api_dismiss_recall p).recall_remedy = none ∧
      (api_dismiss_recall p).recall_date = none ∧
      (api_dismiss_recall p).recall_consumer_contact = none ∧
      (api_dismiss_recall p).last_recall_check = none) := by
  constructor
  · rintro (h | h) <;>
      · have he : recall_eligible p = false := by simp [recall_eligible, h]
        exact ⟨he, by simp [recall_scan_step, he]⟩
  · intro h
    simp [api_dismiss_recall, h]

/-- Witness for C9 at a concrete dismissed product with every recall
field populated. -/
theorem claim_c9_recall_exclusion_witness :
    exDismissedProduct.recall_status = "dismissed" ∧
    (recall_eligible exDismissedProduct = false ∧
      recall_scan_step exDismissedProduct none 9 = exDismissedProduct) ∧
    (api_dismiss_recall exDismissedProduct).recall_status = "none" :=
  ⟨rfl, (claim_c9_recall_exclusion exDismissedProduct none 9).1 (Or.inr rfl),
    ((claim_c9_recall_exclusion exDismissedProduct none 9).2 rfl).1⟩

/-! ### Claim C1 -/

/-- C1 (code bug): `run_cycle` calls `update_from_scrape` — which stamps
`last_checked` — *before* evaluating `should_alert_new`, so the
baseline gate never sees an unset `last_checked` inside the scheduled
cycle: a never-checked product's very first scrape (purchase price 50,
per-item threshold 10%, scraped price 40) emits a price-drop alert,
contradicting the baseline rule. -/
theorem claim_c1_first_scrape_alert_fires :
    exFreshProduct.last_checked = none ∧
    (run_cycle_product exFreshProduct exFirstScrape 100 {} true).2 =
      [Alert.dropNew 40] := by
  refine ⟨rfl, ?_⟩
  norm_num [run_cycle_product, cycle_alerts, update_from_scrape, upd_title,
    upd_screenshot_main, upd_screenshot_offers, upd_new_price, upd_used_price,
    upd_finalize, add_price_point, trim_history, should_alert_new,
    should_alert_used, truthyQ, truthyS, pyOrQ, pyOrS, exFreshProduct,
    exFirstScrape, ALERT_COOLDOWN_HOURS]

/-! ### Claim C3 -/

/-- C3: once `last_alert_sent` is `T`, the scheduled cycle emits no
alert of any kind for that product at any time before `T + 12` hours —
whatever the scrape data, thresholds, batching mode and email outcome —
and leaves `last_alert_sent` untouched. -/
theorem claim_c3_cooldown (p : Product) (d : ScrapeResult) (now T : ℚ)
    (g : CycleGlobals) (emailOk : Bool) (h : p.last_alert_sent = some T)
    (hlt : now < T + ALERT_COOLDOWN_HOURS) :
    (run_cycle_product p d now g emailOk).2 = [] ∧
    (run_cycle_product p d now g emailOk).1.last_alert_sent = some T := by
  by_cases he : truthyS d.error
  · constructor <;> simp [run_cycle_product, he, h]
  · have hla : (update_from_scrape p d now).1.last_alert_sent = some T := by
      rw [update_last_alert_sent, h]
    have hnot : ¬ (ALERT_COOLDOWN_HOURS < now - T) := by
      rw [ALERT_COOLDOWN_HOURS] at *
      intro hc
      linarith
    constructor <;> simp [run_cycle_product, he, hla, hnot]

/-- Witness for C3: the cooldown product alerted at hour 10; at hour 15
a fresh huge drop is suppressed. -/
theorem claim_c3_cooldown_witness :
    exCooldownProduct.last_alert_sent = some 10 ∧
    (15 : ℚ) < 10 + ALERT_COOLDOWN_HOURS ∧
    ((run_cycle_product exCooldownProduct exCooldownScrape 15 {} true).2 = [] ∧
      (run_cycle_product exCooldownProduct exCooldownScrape 15 {} true).1.last_alert_sent =
        some 10) :=
  ⟨rfl, by norm_num [ALERT_COOLDOWN_HOURS],
    claim_c3_cooldown exCooldownProduct exCooldownScrape 15 10 {} true rfl
      (by norm_num [ALERT_COOLDOWN_HOURS])⟩

/-! ### Claim C7 -/

/-- Single-step monotonicity of `lowest_new_price` under a nonzero
established bound. -/
theorem step_lowest_new_mono (p : Product) (d : ScrapeResult) (now v : ℚ)
    (h : p.lowest_new_price = some v) (hv : v ≠ 0) :
    ∃ w, (update_from_scrape p d now).1.lowest_new_price = some w ∧ w ≤ v ∧ w ≠ 0 := by
  rw [update_lowest_new_char]
  by_cases ht : truthyQ d.new_price
  · rcases hd : d.new_price with _ | u
    · rw [hd] at ht
      simp [truthyQ] at ht
    · have hu0 : u ≠ 0 := by
        rw [hd] at ht
        simpa [truthyQ] using ht
      rw [h, hd] at *
      simp only [truthyQ, hv, hu0, Option.getD_some, ne_eq, decide_not,
        not_false_eq_true, decide_True, Bool.not_true, Bool.false_eq_true,
        false_or, if_true]
      by_cases hlt : u < v
      · exact ⟨u, by simp [hlt], le_of_lt hlt, hu0⟩
      · exact ⟨v, by simp [hlt], le_refl v, hv⟩
  · rw [if_neg ht, h]
    exact ⟨v, rfl, le_refl v, hv⟩

/-- Single-step monotonicity of `highest_new_price`. -/
theorem step_highest_new_mono (p : Product) (d : ScrapeResult) (now v : ℚ)
    (h : p.highest_new_price = some v) (hv : v ≠ 0) :
    ∃ w, (update_from_scrape p d now).1.highest_new_price = some w ∧ v ≤ w ∧ w ≠ 0 := by
  rw [update_highest_new_char]
  by_cases ht : truthyQ d.new_price
  · rcases hd : d.new_price with _ | u
    · rw [hd] at ht
      simp [truthyQ] at ht
    · have hu0 : u ≠ 0 := by
        rw [hd] at ht
        simpa [truthyQ] using ht
      rw [h, hd] at *
      simp only [truthyQ, hv, hu0, Option.getD_some, ne_eq, decide_not,
        not_false_eq_true, decide_True, Bool.not_true, Bool.false_eq_true,
        false_or, if_true]
      by_cases hlt : v < u
      · exact ⟨u, by simp [hlt], le_of_lt hlt, hu0⟩
      · exact ⟨v, by simp [hlt], le_refl v, hv⟩
  · rw [if_neg ht, h]
    exact ⟨v, rfl, le_refl v, hv⟩

/-- Single-step monotonicity of `lowest_used_price`. -/
theorem step_lowest_used_mono (p : Product) (d : ScrapeResult) (now v : ℚ)
    (h : p.lowest_used_price = some v) (hv : v ≠ 0) :
    ∃ w, (update_from_scrape p d now).1.lowest_used_price = some w ∧ w ≤ v ∧ w ≠ 0 := by
  rw [update_lowest_used_char]
  by_cases ht : truthyQ d.used_price
  · rcases hd : d.used_price with _ | u
    · rw [hd] at ht
      simp [truthyQ] at ht
    · have hu0 : u ≠ 0 := by
        rw [hd] at ht
        simpa [truthyQ] using ht
      rw [h, hd] at *
      simp only [truthyQ, hv, hu0, Option.getD_some, ne_eq, decide_not,
        not_false_eq_true, decide_True, Bool.not_true, Bool.false_eq_true,
        false_or, if_true]
      by_cases hlt : u < v
      · exact ⟨u, by simp [hlt], le_of_lt hlt, hu0⟩
      · exact ⟨v, by simp [hlt], le_refl v, hv⟩
  · rw [if_neg ht, h]
    exact ⟨v, rfl, le_refl v, hv⟩

/-- Single-step monotonicity of `highest_used_price`. -/
theorem step_highest_used_mono (p : Product) (d : ScrapeResult) (now v : ℚ)
    (h : p.highest_used_price = some v) (hv : v ≠ 0) :
    ∃ w, (update_from_scrape p d now).1.highest_used_price = some w ∧ v ≤ w ∧ w ≠ 0 := by
  rw [update_highest_used_char]
  by_cases ht : truthyQ d.used_price
  · rcases hd : d.used_price with _ | u
    · rw [hd] at ht
      simp [truthyQ] at ht
    · have hu0 : u ≠ 0 := by
        rw [hd] at ht
        simpa [truthyQ] using ht
      rw [h, hd] at *
      simp only [truthyQ, hv, hu0, Option.getD_some, ne_eq, decide_not,
        not_false_eq_true, decide_True, Bool.not_true, Bool.false_eq_true,
        false_or, if_true]
      by_cases hlt : v < u
      · exact ⟨u, by simp [hlt], le_of_lt hlt, hu0⟩
      · exact ⟨v, by simp [hlt], le_refl v, hv⟩
  · rw [if_neg ht, h]
    exact ⟨v, rfl, le_refl v, hv⟩

theorem scrapes_lowest_new_mono :
    ∀ (l : List (ScrapeResult × ℚ)) (p : Product) (v : ℚ),
      p.lowest_new_price = some v → v ≠ 0 →
      ∃ w, (apply_scrapes p l).lowest_new_price = some w ∧ w ≤ v ∧ w ≠ 0
  | [], p, v, h, hv => ⟨v, h, le_refl v, hv⟩
  | e :: l2, p, v, h, hv => by
    obtain ⟨w1, hw1, hle1, hne1⟩ := step_lowest_new_mono p e.1 e.2 v h hv
    obtain ⟨w, hw, hle, hne⟩ := scrapes_lowest_new_mono l2 _ w1 hw1 hne1
    exact ⟨w, hw, le_trans hle hle1, hne⟩

theorem scrapes_highest_new_mono :
    ∀ (l : List (ScrapeResult × ℚ)) (p : Product) (v : ℚ),
      p.highest_new_price = some v → v ≠ 0 →
      ∃ w, (apply_scrapes p l).highest_new_price = some w ∧ v ≤ w ∧ w ≠ 0
  | [], p, v, h, hv => ⟨v, h, le_refl v, hv⟩
  | e :: l2, p, v, h, hv => by
    obtain ⟨w1, hw1, hle1, hne1⟩ := step_highest_new_mono p e.1 e.2 v h hv
    obtain ⟨w, hw, hle, hne⟩ := scrapes_highest_new_mono l2 _ w1 hw1 hne1
    exact ⟨w, hw, le_trans hle1 hle, hne⟩

theorem scrapes_lowest_used_mono :
    ∀ (l : List (ScrapeResult × ℚ)) (p : Product) (v : ℚ),
      p.lowest_used_price = some v → v ≠ 0 →
      ∃ w, (apply_scrapes p l).lowest_used_price = some w ∧ w ≤ v ∧ w ≠ 0
  | [], p, v, h, hv => ⟨v, h, le_refl v, hv⟩
  | e :: l2, p, v, h, hv => by
    obtain ⟨w1, hw1, hle1, hne1⟩ := step_lowest_used_mono p e.1 e.2 v h hv
    obtain ⟨w, hw, hle, hne⟩ := scrapes_lowest_used_mono l2 _ w1 hw1 hne1
    exact ⟨w, hw, le_trans hle hle1, hne⟩

theorem scrapes_highest_used_mono :
    ∀ (l : List (ScrapeResult × ℚ)) (p : Product) (v : ℚ),
      p.highest_used_price = some v → v ≠ 0 →
      ∃ w, (apply_scrapes p l).highest_used_price = some w ∧ v ≤ w ∧ w ≠ 0
  | [], p, v, h, hv => ⟨v, h, le_refl v, hv⟩
  | e :: l2, p, v, h, hv => by
    obtain ⟨w1, hw1, hle1, hne1⟩ := step_highest_used_mono p e.1 e.2 v h hv
    obtain ⟨w, hw, hle, hne⟩ := scrapes_highest_used_mono l2 _ w1 hw1 hne1
    exact ⟨w, hw, le_trans hle1 hle, hne⟩

/-- C7 counterexample: a product whose stored `lowest_new_price` is
exactly 0 is treated as having *no* bound (Python float truthiness), so
an update with price 5 raises the set `lowest_new_price` from 0 to 5 —
the claim's unconditional "once set, never increases" fails. -/
theorem claim_c7_counterexample :
    exZeroLowProduct.lowest_new_price = some 0 ∧
    (update_from_scrape exZeroLowProduct exRaisingScrape 1).1.lowest_new_price = some 5 ∧
    ¬ ((5 : ℚ) ≤ 0) := by
  refine ⟨rfl, ?_, by norm_num⟩
  rw [update_lowest_new_char]
  norm_num [truthyQ, exZeroLowProduct, exRaisingScrape]

/-- C7 as amended: once set *to a nonzero value*, `lowest_*` never
increases and `highest_*` never decreases over any sequence of
`update_from_scrape` calls (and stays set and nonzero); a stored
extremum of exactly 0 is falsy and treated as unset by the code. -/
theorem claim_c7_extrema_monotone (p : Product) (l : List (ScrapeResult × ℚ)) :
    (∀ v, p.lowest_new_price = some v → v ≠ 0 →
      ∃ w, (apply_scrapes p l).lowest_new_price = some w ∧ w ≤ v ∧ w ≠ 0) ∧
    (∀ v, p.highest_new_price = some v → v ≠ 0 →
      ∃ w, (apply_scrapes p l).highest_new_price = some w ∧ v ≤ w ∧ w ≠ 0) ∧
    (∀ v, p.lowest_used_price = some v → v ≠ 0 →
      ∃ w, (apply_scrapes p l).lowest_used_price = some w ∧ w ≤ v ∧ w ≠ 0) ∧
    (∀ v, p.highest_used_price = some v → v ≠ 0 →
      ∃ w, (apply_scrapes p l).highest_used_price = some w ∧ v ≤ w ∧ w ≠ 0) :=
  ⟨fun v h hv => scrapes_lowest_new_mono l p v h hv,
   fun v h hv => scrapes_highest_new_mono l p v h hv,
   fun v h hv => scrapes_lowest_used_mono l p v h hv,
   fun v h hv => scrapes_highest_used_mono l p v h hv⟩

/-- Witness for the amended C7 at a product with all four extrema
established. -/
theorem claim_c7_extrema_monotone_witness :
    exExtremaProduct.lowest_new_price = some 40 ∧ (40 : ℚ) ≠ 0 ∧
    ∃ w, (apply_scrapes exExtremaProduct [(exFirstScrape, 2)]).lowest_new_price = some w ∧
      w ≤ 40 ∧ w ≠ 0 :=
  ⟨rfl, by norm_num,
    (claim_c7_extrema_monotone exExtremaProduct [(exFirstScrape, 2)]).1 40 rfl
      (by norm_num)⟩

/-! ### Claim C8 -/

/-- Trimming is dropping all but the last `MAX_PRICE_HISTORY` entries
(for short lists the truncated subtraction is 0). -/
theorem trim_eq_drop (h : List PricePoint) :
    trim_history h = h.drop (h.length - MAX_PRICE_HISTORY) := by
  unfold trim_history MAX_PRICE_HISTORY
  split
  · rfl
  · rename_i hc
    have h0 : h.length - 90 = 0 := by omega
    rw [h0, List.drop_zero]

/-- Trimming early and appending more is the same as trimming once at
the end. -/
theorem trim_trim_append (x y : List PricePoint) :
    trim_history (trim_history x ++ y) = trim_history (x ++ y) := by
  rw [trim_eq_drop, trim_eq_drop, trim_eq_drop, List.drop_append_eq_append_drop,
    List.drop_append_eq_append_drop, List.drop_drop]
  have h1 : x.length - MAX_PRICE_HISTORY +
      ((x.drop (x.length - MAX_PRICE_HISTORY) ++ y).length - MAX_PRICE_HISTORY) =
      (x ++ y).length - MAX_PRICE_HISTORY := by
    simp only [List.length_append, List.length_drop, MAX_PRICE_HISTORY]
    omega
  have h2 : (x.drop (x.length - MAX_PRICE_HISTORY) ++ y).length - MAX_PRICE_HISTORY -
      (x.drop (x.length - MAX_PRICE_HISTORY)).length =
      (x ++ y).length - MAX_PRICE_HISTORY - x.length := by
    simp only [List.length_append, List.length_drop, MAX_PRICE_HISTORY]
    omega
  rw [h1, h2]

/-- After at least one append, the stored history is the trim of the
original history plus all appended samples. -/
theorem appends_history :
    ∀ (l : List (Option ℚ × Option ℚ × ℚ)) (p : Product), l ≠ [] →
      (apply_appends p l).price_history =
        trim_history (p.price_history ++ l.map toPoint)
  | [], _, hne => absurd rfl hne
  | [e], p, _ => by
    simp [apply_appends, add_price_point, toPoint]
  | e :: e2 :: l2, p, _ => by
    have step : apply_appends p (e :: e2 :: l2) =
        apply_appends (add_price_point p e.1 e.2.1 e.2.2) (e2 :: l2) := rfl
    rw [step, appends_history (e2 :: l2) _ (by simp)]
    show trim_history (trim_history (p.price_history ++ [toPoint e]) ++ _) = _
    rw [trim_trim_append]
    simp [toPoint]

/-- C8: one append never leaves more than 90 samples, and after more
than 90 appends the stored history is exactly the 90 most recent
samples in order (length exactly 90, oldest evicted first). -/
theorem claim_c8_history_bound (p : Product) (l : List (Option ℚ × Option ℚ × ℚ))
    (np up : Option ℚ) (now : ℚ) :
    (add_price_point p np up now).price_history.length ≤ MAX_PRICE_HISTORY ∧
    (MAX_PRICE_HISTORY < l.length →
      (apply_appends p l).price_history =
        (l.map toPoint).drop (l.length - MAX_PRICE_HISTORY) ∧
      (apply_appends p l).price_history.length = MAX_PRICE_HISTORY) := by
  constructor
  · show (trim_history _).length ≤ _
    rw [trim_eq_drop]
    simp only [List.length_drop, List.length_append, List.length_cons,
      List.length_nil, MAX_PRICE_HISTORY]
    omega
  · intro hlen
    have hne : l ≠ [] := by
      intro h0
      rw [h0] at hlen
      simp [MAX_PRICE_HISTORY] at hlen
    have hh := appends_history l p hne
    rw [trim_eq_drop] at hh
    have hidx : (p.price_history ++ l.map toPoint).length - MAX_PRICE_HISTORY =
        p.price_history.length + (l.length - MAX_PRICE_HISTORY) := by
      simp only [List.length_append, List.length_map, MAX_PRICE_HISTORY] at *
      omega
    rw [hidx, ← List.drop_drop, List.drop_left] at hh
    refine ⟨hh, ?_⟩
    rw [hh]
    simp only [List.length_drop, List.length_map, MAX_PRICE_HISTORY] at *
    omega

/-- Witness for C8: 91 identical appends to a fresh product. -/
theorem claim_c8_history_bound_witness :
    MAX_PRICE_HISTORY < exAppendList.length ∧
    ((apply_appends { } exAppendList).price_history =
        (exAppendList.map toPoint).drop (exAppendList.length - MAX_PRICE_HISTORY) ∧
      (apply_appends { } exAppendList).price_history.length = MAX_PRICE_HISTORY) :=
  ⟨by simp [exAppendList, MAX_PRICE_HISTORY],
    (claim_c8_history_bound { } exAppendList none none 0).2
      (by simp [exAppendList, MAX_PRICE_HISTORY])⟩

/-! ### Claim C4 -/

theorem score_cpsc_brand_cap (title : String) (r : RecallData)
    (h : cpsc_brand_found title r = false) : score_cpsc title r ≤ 15 := by
  simp only [score_cpsc, h, Bool.false_eq_true, if_false]
  split <;> omega

theorem score_cpsc_type_cap (title : String) (r : RecallData)
    (h : cpsc_type_match title r = false) : score_cpsc title r ≤ 30 := by
  simp only [cpsc_type_match, decide_eq_false_iff_not] at h
  simp only [score_cpsc, h, if_false]
  split <;> omega

theorem score_fda_brand_cap (title : String) (r : RecallData)
    (h : fda_brand_found title r = false) : score_fda title r ≤ 15 := by
  simp only [score_fda, h, Bool.false_eq_true, if_false]
  split <;> omega

theorem score_fda_type_cap (title : String) (r : RecallData)
    (h : fda_type_match title r = false) : score_fda title r ≤ 30 := by
  simp only [fda_type_match, decide_eq_false_iff_not] at h
  simp only [score_fda, h, if_false]
  split <;> omega

/-- C4: for every title, candidate and source tag, a failed brand gate
caps the score at 15 and a passed brand gate without a product-type
match caps it at 30, regardless of every other accumulated signal
(including the UPC override); and a concrete input with both gates
passing scores 66 > 55. -/
theorem claim_c4_recall_gating :
    (∀ (title : String) (r : RecallData) (source : String),
      (brand_gate title r source = false → score_recall_match title r source ≤ 15) ∧
      (brand_gate title r source = true → type_gate title r source = false →
        score_recall_match title r source ≤ 30)) ∧
    55 < score_recall_match exRecallTitle exRecallHit "cpsc" := by
  constructor
  · intro title r source
    by_cases h1 : title = ""
    · constructor <;> intro _ <;> try intro _
      all_goals simp [score_recall_match, h1]
    · by_cases h2 : source = "cpsc"
      · simp only [score_recall_match, brand_gate, type_gate, h1, h2, if_true,
          if_false]
        exact ⟨score_cpsc_brand_cap title r, fun _ => score_cpsc_type_cap title r⟩
      · by_cases h3 : source = "fda"
        · simp only [score_recall_match, brand_gate, type_gate, h1, h2, h3,
            if_true, if_false]
          exact ⟨score_fda_brand_cap title r, fun _ => score_fda_type_cap title r⟩
        · simp [score_recall_match, brand_gate, type_gate, h1, h2, h3]
  · decide

/-- Witness for C4's cap branch: a candidate with full product-type
overlap but the wrong brand is capped at 15. -/
theorem claim_c4_recall_gating_witness :
    brand_gate exRecallTitle exRecallNoBrand "cpsc" = false ∧
    score_recall_match exRecallTitle exRecallNoBrand "cpsc" ≤ 15 :=
  ⟨by decide,
    (claim_c4_recall_gating.1 exRecallTitle exRecallNoBrand "cpsc").1 (by decide)⟩

/-! ### Claim C5 -/

theorem fda_reason_score_le (title : String) (r : RecallData) :
    fda_reason_score title r ≤ 10 := by
  simp only [fda_reason_score]
  split <;> omega

/-- No FDA candidate can score above 80 (brand 30 + overlap 40 + reason
10, before the caps and the clamp). -/
theorem score_fda_le_80 (title : String) (r : RecallData) : score_fda title r ≤ 80 := by
  have hr := fda_reason_score_le title r
  simp only [score_fda]
  repeat' split
  all_goals omega

theorem score_fda_match_le_80 (title : String) (r : RecallData) :
    score_recall_match title r "fda" ≤ 80 := by
  by_cases h : title = ""
  · simp [score_recall_match, h]
  · unfold score_recall_match
    rw [if_neg h, if_neg (by decide : ¬ ("fda" : String) = "cpsc"), if_pos rfl]
    exact score_fda_le_80 title r

/-- Every non-final entry of the CPSC request trace was recorded with a
running best score below 85: a request issued after a ≥85 score is
impossible. -/
theorem cpsc_go_trace (title : String) (fetch : List Char → Option (List RecallData)) :
    ∀ (qs : List (List Char × Nat)) (b : Nat) (m : Option RecallData)
      (iss : List (List Char × Nat)), b < 85 → (∀ e ∈ iss, e.2 < 85) →
      ∀ (i : Nat) (e : List Char × Nat),
        (cpsc_go title fetch qs b m iss).issued.get? i = some e → 85 ≤ e.2 →
        i + 1 = (cpsc_go title fetch qs b m iss).issued.length
  | [], b, m, iss, _, hiss, i, e, hget, hge => by
    simp only [cpsc_go] at hget ⊢
    have := hiss _ (List.get?_mem hget)
    omega
  | (q, w) :: rest, b, m, iss, hb, hiss, i, e, hget, hge => by
    rcases hf : fetch q with _ | rs
    · simp only [cpsc_go, hf] at hget ⊢
      refine cpsc_go_trace title fetch rest b m _ hb ?_ i e hget hge
      intro x hx
      rcases List.mem_append.mp hx with hx1 | hx2
      · exact hiss x hx1
      · rw [List.mem_singleton.mp hx2]
        exact hb
    · by_cases h85 : 85 ≤ (scan_cpsc_candidates title (rs.take 25) b m).1
      · simp only [cpsc_go, hf] at hget ⊢
        rw [if_pos h85] at hget ⊢
        rcases Nat.lt_or_ge i iss.length with hi | hi
        · exfalso
          rw [List.get?_append hi] at hget
          have := hiss _ (List.get?_mem hget)
          omega
        · have hlt := (List.get?_eq_some.mp hget).1
          simp only [List.length_append, List.length_cons, List.length_nil] at hlt ⊢
          omega
      · simp only [cpsc_go, hf] at hget ⊢
        rw [if_neg h85] at hget ⊢
        refine cpsc_go_trace title fetch rest _ _ _ (by omega) ?_ i e hget hge
        intro x hx
        rcases List.mem_append.mp hx with hx1 | hx2
        · exact hiss x hx1
        · rw [List.mem_singleton.mp hx2]
          simpa using by omega

theorem scan_cpsc_isSome (title : String) :
    ∀ (rs : List RecallData) (b : Nat) (m : Option RecallData),
      (0 < b → m.isSome) → (0 < (scan_cpsc_candidates title rs b m).1 →
        (scan_cpsc_candidates title rs b m).2.isSome)
  | [], b, m, hm => hm
  | r :: rs, b, m, hm => by
    simp only [scan_cpsc_candidates]
    by_cases hlt : b < score_recall_match title r "cpsc"
    · simp only [hlt, if_true]
      split
      · exact fun _ => rfl
      · exact scan_cpsc_isSome title rs _ _ (fun _ => rfl)
    · simp only [hlt, if_false]
      split
      · exact hm
      · exact scan_cpsc_isSome title rs _ _ hm

theorem cpsc_go_isSome (title : String) (fetch : List Char → Option (List RecallData)) :
    ∀ (qs : List (List Char × Nat)) (b : Nat) (m : Option RecallData)
      (iss : List (List Char × Nat)), (0 < b → m.isSome) →
      (0 < (cpsc_go title fetch qs b m iss).best_score →
        (cpsc_go title fetch qs b m iss).best_match.isSome)
  | [], b, m, iss, hm => hm
  | (q, w) :: rest, b, m, iss, hm => by
    rcases hf : fetch q with _ | rs
    · simp only [cpsc_go, hf]
      exact cpsc_go_isSome title fetch rest b m _ hm
    · simp only [cpsc_go, hf]
      split
      · exact scan_cpsc_isSome title (rs.take 25) b m hm
      · exact cpsc_go_isSome title fetch rest _ _ _
          (scan_cpsc_isSome title (rs.take 25) b m hm)

theorem check_cpsc_of_85 (title : String) (fetch : List Char → Option (List RecallData))
    (h : 85 ≤ (cpsc_search title fetch).best_score) :
    ∃ x, check_cpsc_recalls_for_product title fetch = some x := by
  have hs : (cpsc_search title fetch).best_match.isSome := by
    refine cpsc_go_isSome title fetch _ 0 none [] (fun h0 => absurd h0 (by omega)) ?_
    show 0 < (cpsc_search title fetch).best_score
    omega
  obtain ⟨x, hx⟩ := Option.isSome_iff_exists.mp hs
  refine ⟨x, ?_⟩
  unfold check_cpsc_recalls_for_product
  rw [if_pos]
  · exact hx
  · simp only [hx, Option.isSome_some, Bool.true_and, decide_eq_true_eq]
    omega

theorem scan_fda_le (title ep : String) :
    ∀ (rs : List RecallData) (b : Nat) (m : Option (RecallData × String)),
      b ≤ 80 → (scan_fda_candidates title ep rs b m).1 ≤ 80
  | [], _, _, hb => hb
  | r :: rs, b, m, hb => by
    simp only [scan_fda_candidates]
    refine scan_fda_le title ep rs _ _ ?_
    have := score_fda_match_le_80 title r
    split <;> omega

theorem fda_ep_go_inv (title : String)
    (fetch : String → List Char → Option (List RecallData)) (q : List Char) :
    ∀ (eps : List String) (b : Nat) (m : Option (RecallData × String))
      (iss : List (String × List Char × Nat)), b ≤ 80 → (∀ e ∈ iss, e.2.2 ≤ 80) →
      (fda_ep_go title fetch q eps b m iss).best_score ≤ 80 ∧
      (∀ e ∈ (fda_ep_go title fetch q eps b m iss).issued, e.2.2 ≤ 80)
  | [], b, m, iss, hb, hiss => ⟨hb, hiss⟩
  | ep :: eps, b, m, iss, hb, hiss => by
    rcases hf : fetch ep q with _ | rs
    · simp only [fda_ep_go, hf]
      refine fda_ep_go_inv title fetch q eps b m _ hb ?_
      intro e he
      rcases List.mem_append.mp he with he1 | he2
      · exact hiss e he1
      · rw [List.mem_singleton.mp he2]
        exact hb
    · simp only [fda_ep_go, hf]
      have hsc := scan_fda_le title ep rs b m hb
      refine fda_ep_go_inv title fetch q eps _ _ _ hsc ?_
      intro e he
      rcases List.mem_append.mp he with he1 | he2
      · exact hiss e he1
      · rw [List.mem_singleton.mp he2]
        exact hsc

theorem fda_go_inv (title : String)
    (fetch : String → List Char → Option (List RecallData)) :
    ∀ (qs : List (List Char × Nat)) (b : Nat) (m : Option (RecallData × String))
      (iss : List (String × List Char × Nat)), b ≤ 80 → (∀ e ∈ iss, e.2.2 ≤ 80) →
      (fda_go title fetch qs b m iss).best_score ≤ 80 ∧
      (∀ e ∈ (fda_go title fetch qs b m iss).issued, e.2.2 ≤ 80)
  | [], b, m, iss, hb, hiss => ⟨hb, hiss⟩
  | (q, w) :: rest, b, m, iss, hb, hiss => by
    simp only [fda_go]
    have h1 := fda_ep_go_inv title fetch q fda_endpoints b m iss hb hiss
    exact fda_go_inv title fetch rest _ _ _ h1.1 h1.2

/-- C5: in the CPSC search, once the running best score reaches 85 no
further request is issued (any trace entry recorded at ≥85 is the last
one); a ≥85 CPSC best skips the FDA fallback entirely; and in the FDA
fallback no candidate can ever score 85 (all scores are ≤ 80), so the
same property holds there. -/
theorem claim_c5_short_circuit (title : String)
    (fetchC : List Char → Option (List RecallData))
    (fetchF : String → List Char → Option (List RecallData)) :
    (∀ (i : Nat) (e : List Char × Nat),
        (cpsc_search title fetchC).issued.get? i = some e → 85 ≤ e.2 →
        i + 1 = (cpsc_search title fetchC).issued.length) ∧
    (85 ≤ (cpsc_search title fetchC).best_score →
        (run_recall_scan_product title fetchC fetchF).2.2 = []) ∧
    (∀ r, score_recall_match title r "fda" ≤ 80) ∧
    (∀ (j : Nat) (e : String × List Char × Nat),
        (fda_search title fetchF).issued.get? j = some e → 85 ≤ e.2.2 →
        j + 1 = (fda_search title fetchF).issued.length) := by
  refine ⟨?_, ?_, score_fda_match_le_80 title, ?_⟩
  · intro i e hget hge
    exact cpsc_go_trace title fetchC (extract_recall_keywords title).queries 0 none []
      (by omega) (by simp) i e hget hge
  · intro h85
    obtain ⟨x, hx⟩ := check_cpsc_of_85 title fetchC h85
    unfold run_recall_scan_product
    rw [hx]
  · intro j e hget hge
    have hall := (fda_go_inv title fetchF ((extract_recall_keywords title).queries.take 2)
      0 none [] (by omega) (by simp)).2
    have := hall _ (List.get?_mem hget)
    omega

/-- Witness for C5: the first CPSC query already yields an 86-scoring
candidate, so the FDA fallback issues no request at all. -/
theorem claim_c5_short_circuit_witness :
    85 ≤ (cpsc_search exRecallTitle exCpscFetch).best_score ∧
    (run_recall_scan_product exRecallTitle exCpscFetch exFdaFetch).2.2 = [] :=
  ⟨by decide,
    (claim_c5_short_circuit exRecallTitle exCpscFetch exFdaFetch).2.1 (by decide)⟩

/-! ### Claim C6 -/

theorem fda_ep_go_issued (title : String)
    (fetch : String → List Char → Option (List RecallData)) (q : List Char) :
    ∀ (eps : List String) (b : Nat) (m : Option (RecallData × String))
      (iss : List (String × List Char × Nat)),
      (fda_ep_go title fetch q eps b m iss).issued.map (fun e => (e.1, e.2.1)) =
        iss.map (fun e => (e.1, e.2.1)) ++ eps.map (fun ep => (ep, q))
  | [], b, m, iss => by simp [fda_ep_go]
  | ep :: eps, b, m, iss => by
    rcases hf : fetch ep q with _ | rs <;>
      · simp only [fda_ep_go, hf]
        rw [fda_ep_go_issued title fetch q eps _ _ _]
        simp

theorem fda_go_issued (title : String)
    (fetch : String → List Char → Option (List RecallData)) :
    ∀ (qs : List (List Char × Nat)) (b : Nat) (m : Option (RecallData × String))
      (iss : List (String × List Char × Nat)),
      (fda_go title fetch qs b m iss).issued.map (fun e => (e.1, e.2.1)) =
        iss.map (fun e => (e.1, e.2.1)) ++
          (qs.map (fun qw => fda_endpoints.map (fun ep => (ep, qw.1)))).flatten
  | [], b, m, iss => by simp [fda_go]
  | (q, w) :: rest, b, m, iss => by
    simp only [fda_go]
    rw [fda_go_issued title fetch rest _ _ _,
      fda_ep_go_issued title fetch q fda_endpoints b m iss]
    simp [List.append_assoc]

/-- C6 counterexample: for spec example 3's title the extractor yields
all three queries, yet the FDA fallback issues the weight-1 brand-alone
query `Weber` and never the weight-2 query `Weber Genesis` — the code
takes the first two queries in extraction order (weights 3 and 1), not
the two highest-weight ones. -/
theorem claim_c6_counterexample :
    (extract_recall_keywords exFdaTitle).queries =
      [("Weber Genesis Grill".data, 3), ("Weber".data, 1), ("Weber Genesis".data, 2)] ∧
    "Weber".data ∈ (fda_search exFdaTitle exFdaFetch).issued.map (fun e => e.2.1) ∧
    ¬ "Weber Genesis".data ∈
      (fda_search exFdaTitle exFdaFetch).issued.map (fun e => e.2.1) :=
  ⟨by decide, by decide, by decide⟩

/-- C6 as amended: the FDA fallback issues exactly one request per
endpoint for each of the *first two* queries in extraction order — with
all three queries present these are the weight-3 query and the weight-1
brand-alone query, never the weight-2 query. -/
theorem claim_c6_fallback_first_two_queries (title : String)
    (fetch : String → List Char → Option (List RecallData)) :
    (fda_search title fetch).issued.map (fun e => (e.1, e.2.1)) =
      (((extract_recall_keywords title).queries.take 2).map
        (fun qw => fda_endpoints.map (fun ep => (ep, qw.1)))).flatten := by
  unfold fda_search
  rw [fda_go_issued]
  simp

end APT
